import Mathlib

/-!
Shallow embedding of the webhook event-reconciliation core of the
`nextjs-nango-plugin` repository:

* `src/lib/webhooks/handler.ts` — `handleWebhook`, the reconciliation
  engine (signature check, zod schema validation, per-event dispatch to
  the optional Connection Store and Secrets Store);
* the unnamed handler revision — `convertNangoCredentials`, the
  credential normalizer;
* `src/lib/nango/client.ts` — `NangoService`, the provider API gateway;
* the example in-memory connection store used to exercise idempotency.

Store collaborators are modelled as records of state-transition
functions returning `Except Err`; a thrown JS exception is an
`Except.error`.  The handler threads the two store states explicitly and
records every store operation it attempts in a trace list.
-/

namespace NangoPlugin

/-- A small model of JSON/JS runtime values; `date` is a JS `Date`
object carrying its `toISOString()` rendering. -/
inductive JVal : Type
  | str (s : String)
  | num (n : Int)
  | boolean (b : Bool)
  | null
  | date (iso : String)
  | obj (fields : List (String × JVal))
deriving Repr

/-- A JS object, as an association list in key order. -/
abbrev JObj := List (String × JVal)

/-- Property lookup `o[k]`; `none` models `undefined`. -/
def jlookup (o : JObj) (k : String) : Option JVal :=
  (o.find? (fun p => p.1 = k)).map (fun p => p.2)

/-- `Object.assign(target, source)`: keys of `source` overwrite
`target`'s values in place; keys new to `target` are appended in source
order. -/
def assignObj (target source : JObj) : JObj :=
  (target.map (fun p =>
    match jlookup source p.1 with
    | some v => (p.1, v)
    | none => p)) ++
  source.filter (fun p => (jlookup target p.1).isNone)

/-- Connection status enum from `connection-service.ts`. -/
inductive Status : Type
  | ACTIVE | INACTIVE | ERROR | EXPIRED
deriving DecidableEq, Repr

/-- The three accepted webhook event types (`z.enum`). -/
inductive EventType : Type
  | auth | sync | connectionDeleted
deriving DecidableEq, Repr

/-- The three accepted webhook operations (`z.enum`). -/
inductive Operation : Type
  | creation | deletion | update
deriving DecidableEq, Repr

/-- Raw `endUser` object of an inbound body, before validation. -/
structure RawEndUser : Type where
  endUserId : Option String
  organizationId : Option String
deriving DecidableEq, Repr

/-- An inbound webhook body after `JSON.parse`, before zod validation.
`dataCredentials` models `body.data?.credentials`. -/
structure RawEvent : Type where
  type : Option String := none
  operation : Option String := none
  success : Option Bool := none
  connectionId : Option String := none
  providerConfigKey : Option String := none
  provider : Option String := none
  environment : Option String := none
  authMode : Option String := none
  syncJobId : Option String := none
  dataCredentials : Option JObj := none
  endUser : Option RawEndUser := none
  createdAt : Option String := none

/-- Validated `endUser` (zod: `endUserId` required when present). -/
structure EndUser : Type where
  endUserId : String
  organizationId : Option String
deriving DecidableEq, Repr

/-- The validated webhook event (`WebhookEventSchema.parse` output). -/
structure WebhookEvent : Type where
  type : EventType
  operation : Option Operation
  success : Option Bool
  connectionId : String
  providerConfigKey : String
  provider : String
  environment : Option String
  dataCredentials : Option JObj
  endUser : Option EndUser

/-- `z.enum(['sync','auth','connection.deleted'])`. -/
def parseEventType : String → Option EventType
  | "sync" => some EventType.sync
  | "auth" => some EventType.auth
  | "connection.deleted" => some EventType.connectionDeleted
  | _ => none

/-- `z.enum(['creation','deletion','update']).optional()`. -/
def parseOperation : String → Option Operation
  | "creation" => some Operation.creation
  | "deletion" => some Operation.deletion
  | "update" => some Operation.update
  | _ => none

/-- `WebhookEventSchema.parse`: `none` models a thrown `ZodError`. -/
def parseEvent (r : RawEvent) : Option WebhookEvent := do
  let tys ← r.type
  let ty ← parseEventType tys
  let cid ← r.connectionId
  let pck ← r.providerConfigKey
  let prov ← r.provider
  let op ← match r.operation with
    | none => some none
    | some s => (parseOperation s).map some
  let eu ← match r.endUser with
    | none => some none
    | some raw =>
      match raw.endUserId with
      | none => none
      | some e => some (some (EndUser.mk e raw.organizationId))
  some {
    type := ty, operation := op, success := r.success,
    connectionId := cid, providerConfigKey := pck, provider := prov,
    environment := r.environment, dataCredentials := r.dataCredentials,
    endUser := eu }

/-- Errors thrown by a store/gateway call. -/
abbrev Err := String

/-- `Connection` record of `connection-service.ts`. -/
structure Connection : Type where
  id : String
  owner_id : String
  organization_id : Option String
  provider : String
  connection_id : String
  status : Status
  metadata : List (String × String)
  created_at : String
  updated_at : String
deriving DecidableEq, Repr

/-- Connection Store interface (`ConnectionService`), modelled over a
store-state type `σ`; `getConnection` is an optional capability. -/
structure ConnectionService (σ : Type) : Type where
  getConnection : Option (String → σ → Except Err (Option Connection × σ))
  createConnection : String → String → String → Option String →
    List (String × String) → σ → Except Err σ
  updateConnectionStatus : String → Status → σ → Except Err σ

/-- Secrets Store interface (`SecretsService`), modelled over a
secrets-state type `τ`. -/
structure SecretsService (τ : Type) : Type where
  storeSecret : String → String → JObj → String → Option String →
    τ → Except Err τ
  deleteSecret : String → τ → Except Err τ

/-- `nangoService.client.verifyWebhookSignature(signature, parsedBody)`. -/
abbrev Verifier := String → RawEvent → Bool

/-- One attempted store operation, in call order. -/
inductive StoreOp : Type
  | getConnection (connectionId : String)
  | createConnection (providerConfigKey connectionId ownerId : String)
      (organizationId : Option String) (metadata : List (String × String))
  | updateConnectionStatus (connectionId : String) (status : Status)
  | storeSecret (connectionId provider : String)
  | deleteSecret (connectionId : String)
deriving DecidableEq, Repr

/-- The handler's terminal value `{success, eventType, operation}`. -/
structure HandlerResult : Type where
  success : Bool
  eventType : EventType
  operation : Option Operation
deriving DecidableEq, Repr

/-- Errors the handler rethrows to its caller. -/
inductive HandlerError : Type
  | invalidSignature
  | schemaValidation
  | storeFailure (msg : Err)
deriving DecidableEq, Repr

/-- Result of a `handleWebhook` run: outcome, final store states, and
the trace of store operations attempted (in order). -/
structure HandlerOutput (σ τ : Type) : Type where
  result : Except HandlerError HandlerResult
  connState : σ
  secState : τ
  trace : List StoreOp

/-- `{ success: true, eventType: event.type, operation: event.operation }`. -/
def okResult (event : WebhookEvent) : Except HandlerError HandlerResult :=
  Except.ok { success := true, eventType := event.type, operation := event.operation }

/-- Metadata accumulation: `if (event.environment) metadata.environment = …`. -/
def buildMetadata (event : WebhookEvent) : List (String × String) :=
  match event.environment with
  | some v => if v = "" then [] else [("environment", v)]
  | none => []

/-- The secrets step of the `auth`/`creation` branch:
`if (secretsService && event.data?.credentials) try { storeSecret … } catch { log }`. -/
def secretsPhase {σ τ : Type} (event : WebhookEvent) (ownerId : String)
    (organizationId : Option String) (secretsService : Option (SecretsService τ))
    (cs : σ) (ss : τ) (trace : List StoreOp) : HandlerOutput σ τ :=
  match secretsService, event.dataCredentials with
  | some svc, some creds =>
    match svc.storeSecret event.connectionId event.provider creds ownerId organizationId ss with
    | Except.ok ss2 =>
      ⟨okResult event, cs, ss2, trace ++ [StoreOp.storeSecret event.connectionId event.provider]⟩
    | Except.error _ =>
      ⟨okResult event, cs, ss, trace ++ [StoreOp.storeSecret event.connectionId event.provider]⟩
  | _, _ => ⟨okResult event, cs, ss, trace⟩

/-- The create-with-fallback step:
`try { createConnection … } catch { try { updateConnectionStatus(id,'ACTIVE') } catch { log } }`,
then the secrets step. -/
def createPhase {σ τ : Type} (event : WebhookEvent) (ownerId : String)
    (organizationId : Option String) (svc : ConnectionService σ)
    (secretsService : Option (SecretsService τ)) (cs : σ) (ss : τ)
    (trace : List StoreOp) : HandlerOutput σ τ :=
  match svc.createConnection event.providerConfigKey event.connectionId
      ownerId organizationId (buildMetadata event) cs with
  | Except.ok cs2 =>
    secretsPhase event ownerId organizationId secretsService cs2 ss
      (trace ++ [StoreOp.createConnection event.providerConfigKey event.connectionId
        ownerId organizationId (buildMetadata event)])
  | Except.error _ =>
    match svc.updateConnectionStatus event.connectionId Status.ACTIVE cs with
    | Except.ok cs2 =>
      secretsPhase event ownerId organizationId secretsService cs2 ss
        (trace ++ [StoreOp.createConnection event.providerConfigKey event.connectionId
          ownerId organizationId (buildMetadata event),
          StoreOp.updateConnectionStatus event.connectionId Status.ACTIVE])
    | Except.error _ =>
      secretsPhase event ownerId organizationId secretsService cs ss
        (trace ++ [StoreOp.createConnection event.providerConfigKey event.connectionId
          ownerId organizationId (buildMetadata event),
          StoreOp.updateConnectionStatus event.connectionId Status.ACTIVE])

/-- The `auth`/`creation`/owner-present step: idempotency pre-check via
the optional `getConnection` capability (uncaught), duplicate update
(uncaught), else create-with-fallback and secrets. -/
def authCreation {σ τ : Type} (event : WebhookEvent) (ownerId : String)
    (organizationId : Option String)
    (connectionService : Option (ConnectionService σ))
    (secretsService : Option (SecretsService τ)) (cs : σ) (ss : τ) :
    HandlerOutput σ τ :=
  match connectionService with
  | none => secretsPhase event ownerId organizationId secretsService cs ss []
  | some svc =>
    match svc.getConnection with
    | some getC =>
      match getC event.connectionId cs with
      | Except.error e =>
        ⟨Except.error (HandlerError.storeFailure e), cs, ss,
          [StoreOp.getConnection event.connectionId]⟩
      | Except.ok (some _, cs1) =>
        match svc.updateConnectionStatus event.connectionId Status.ACTIVE cs1 with
        | Except.ok cs2 =>
          ⟨okResult event, cs2, ss,
            [StoreOp.getConnection event.connectionId,
             StoreOp.updateConnectionStatus event.connectionId Status.ACTIVE]⟩
        | Except.error e =>
          ⟨Except.error (HandlerError.storeFailure e), cs1, ss,
            [StoreOp.getConnection event.connectionId,
             StoreOp.updateConnectionStatus event.connectionId Status.ACTIVE]⟩
      | Except.ok (none, cs1) =>
        createPhase event ownerId organizationId svc secretsService cs1 ss
          [StoreOp.getConnection event.connectionId]
    | none => createPhase event ownerId organizationId svc secretsService cs ss []

/-- The `case 'auth'` arm of the dispatch switch. -/
def authBranch {σ τ : Type} (event : WebhookEvent)
    (connectionService : Option (ConnectionService σ))
    (secretsService : Option (SecretsService τ)) (cs : σ) (ss : τ) :
    HandlerOutput σ τ :=
  if event.operation = some Operation.creation ∧ event.success = some true then
    match event.endUser with
    | none => ⟨okResult event, cs, ss, []⟩
    | some eu =>
      if eu.endUserId = "" then ⟨okResult event, cs, ss, []⟩
      else authCreation event eu.endUserId eu.organizationId
        connectionService secretsService cs ss
  else
    match connectionService with
    | some svc =>
      if event.success = some true then ⟨okResult event, cs, ss, []⟩
      else
        match svc.updateConnectionStatus event.connectionId Status.ERROR cs with
        | Except.ok cs2 =>
          ⟨okResult event, cs2, ss,
            [StoreOp.updateConnectionStatus event.connectionId Status.ERROR]⟩
        | Except.error _ =>
          ⟨okResult event, cs, ss,
            [StoreOp.updateConnectionStatus event.connectionId Status.ERROR]⟩
    | none => ⟨okResult event, cs, ss, []⟩

/-- The `case 'connection.deleted'` arm: uncaught status update to
`INACTIVE`, then uncaught `deleteSecret`. -/
def deletedBranch {σ τ : Type} (event : WebhookEvent)
    (connectionService : Option (ConnectionService σ))
    (secretsService : Option (SecretsService τ)) (cs : σ) (ss : τ) :
    HandlerOutput σ τ :=
  match connectionService with
  | some svc =>
    match svc.updateConnectionStatus event.connectionId Status.INACTIVE cs with
    | Except.error e =>
      ⟨Except.error (HandlerError.storeFailure e), cs, ss,
        [StoreOp.updateConnectionStatus event.connectionId Status.INACTIVE]⟩
    | Except.ok cs2 =>
      match secretsService with
      | some s =>
        match s.deleteSecret event.connectionId ss with
        | Except.ok ss2 =>
          ⟨okResult event, cs2, ss2,
            [StoreOp.updateConnectionStatus event.connectionId Status.INACTIVE,
             StoreOp.deleteSecret event.connectionId]⟩
        | Except.error e =>
          ⟨Except.error (HandlerError.storeFailure e), cs2, ss,
            [StoreOp.updateConnectionStatus event.connectionId Status.INACTIVE,
             StoreOp.deleteSecret event.connectionId]⟩
      | none =>
        ⟨okResult event, cs2, ss,
          [StoreOp.updateConnectionStatus event.connectionId Status.INACTIVE]⟩
  | none =>
    match secretsService with
    | some s =>
      match s.deleteSecret event.connectionId ss with
      | Except.ok ss2 => ⟨okResult event, cs, ss2, [StoreOp.deleteSecret event.connectionId]⟩
      | Except.error e =>
        ⟨Except.error (HandlerError.storeFailure e), cs, ss,
          [StoreOp.deleteSecret event.connectionId]⟩
    | none => ⟨okResult event, cs, ss, []⟩

/-- The `case 'sync'` arm: uncaught status update, `ACTIVE` on truthy
success, `ERROR` otherwise. -/
def syncBranch {σ τ : Type} (event : WebhookEvent)
    (connectionService : Option (ConnectionService σ)) (cs : σ) (ss : τ) :
    HandlerOutput σ τ :=
  match connectionService with
  | none => ⟨okResult event, cs, ss, []⟩
  | some svc =>
    match svc.updateConnectionStatus event.connectionId
        (if event.success = some true then Status.ACTIVE else Status.ERROR) cs with
    | Except.ok cs2 =>
      ⟨okResult event, cs2, ss,
        [StoreOp.updateConnectionStatus event.connectionId
          (if event.success = some true then Status.ACTIVE else Status.ERROR)]⟩
    | Except.error e =>
      ⟨Except.error (HandlerError.storeFailure e), cs, ss,
        [StoreOp.updateConnectionStatus event.connectionId
          (if event.success = some true then Status.ACTIVE else Status.ERROR)]⟩

/-- The per-event-type dispatch switch of `handleWebhook`. -/
def dispatch {σ τ : Type} (event : WebhookEvent)
    (connectionService : Option (ConnectionService σ))
    (secretsService : Option (SecretsService τ)) (cs : σ) (ss : τ) :
    HandlerOutput σ τ :=
  match event.type with
  | EventType.auth => authBranch event connectionService secretsService cs ss
  | EventType.connectionDeleted => deletedBranch event connectionService secretsService cs ss
  | EventType.sync => syncBranch event connectionService cs ss

/-- Signature gate of `handleWebhook`: verification runs only when BOTH
a nango service and a signature are present (`if (nangoService && signature)`). -/
def sigAccepted (nangoService : Option Verifier) (signature : Option String)
    (body : RawEvent) : Bool :=
  match nangoService, signature with
  | some verify, some sig => verify sig body
  | _, _ => true

/-- `handleWebhook(body, signature, connectionService, nangoService, secretsService)`
from `src/lib/webhooks/handler.ts`, over an already-JSON-parsed body. -/
def handleWebhook {σ τ : Type} (body : RawEvent) (signature : Option String)
    (connectionService : Option (ConnectionService σ))
    (nangoService : Option Verifier)
    (secretsService : Option (SecretsService τ)) (cs : σ) (ss : τ) :
    HandlerOutput σ τ :=
  if sigAccepted nangoService signature body then
    match parseEvent body with
    | none => ⟨Except.error HandlerError.schemaValidation, cs, ss, []⟩
    | some event => dispatch event connectionService secretsService cs ss
  else ⟨Except.error HandlerError.invalidSignature, cs, ss, []⟩

/-! ### Credential normalizer (`convertNangoCredentials`) -/

/-- Canonical `Credentials` shape; unset fields model `undefined`. -/
structure Credentials : Type where
  type : String
  access_token : Option JVal := none
  refresh_token : Option JVal := none
  expires_at : Option JVal := none
  api_key : Option JVal := none
  username : Option JVal := none
  password : Option JVal := none
  raw : JObj := []
deriving Repr

/-- `nangoCredentials.raw || {}` (object-valued `raw` or the default). -/
def credRaw (nc : JObj) : JObj :=
  match jlookup nc "raw" with
  | some (JVal.obj f) => f
  | _ => []

/-- `expires_at instanceof Date ? expires_at.toISOString() : expires_at`. -/
def normalizeExpiresAt : JVal → JVal
  | JVal.date iso => JVal.str iso
  | v => v

/-- `creds.expires_at` assignment guarded by `'expires_at' in nangoCredentials`. -/
def convertedExpiresAt (nc : JObj) : Option JVal :=
  (jlookup nc "expires_at").map normalizeExpiresAt

/-- The OAuth1 extras spread into `creds.raw`
(`{ ...creds.raw, oauth_token, oauth_token_secret }`). -/
def oauth1Extras (nc : JObj) : JObj :=
  (match jlookup nc "oauth_token" with
   | some v => [("oauth_token", v)]
   | none => []) ++
  (match jlookup nc "oauth_token_secret" with
   | some v => [("oauth_token_secret", v)]
   | none => [])

/-- `convertNangoCredentials` from the unnamed handler revision: total
dispatch on the raw credential's declared `type`, defaulting to
`CUSTOM` with the whole raw object merged into `raw`. -/
def convertNangoCredentials (nc : JObj) : Credentials :=
  match jlookup nc "type" with
  | some (JVal.str "OAUTH2") =>
    { type := "OAUTH2"
      access_token := jlookup nc "access_token"
      refresh_token := jlookup nc "refresh_token"
      expires_at := convertedExpiresAt nc
      raw := credRaw nc }
  | some (JVal.str "OAUTH2_CC") =>
    { type := "OAUTH2"
      access_token := jlookup nc "token"
      expires_at := convertedExpiresAt nc
      raw := credRaw nc }
  | some (JVal.str "OAUTH1") =>
    { type := "OAUTH1"
      access_token := jlookup nc "oauth_token"
      raw := assignObj (credRaw nc) (oauth1Extras nc) }
  | some (JVal.str "API_KEY") =>
    { type := "API_KEY"
      api_key := jlookup nc "api_key"
      raw := credRaw nc }
  | some (JVal.str "BASIC") =>
    { type := "BASIC"
      username := jlookup nc "username"
      password := jlookup nc "password"
      raw := credRaw nc }
  | _ =>
    { type := "CUSTOM"
      raw := assignObj (credRaw nc) nc }

/-! ### Provider API gateway (`NangoService`, `src/lib/nango/client.ts`) -/

/-- `createConnectSession` request payload built by `createSession`. -/
structure ConnectSessionRequest : Type where
  endUserId : String
  endUserEmail : String
  organizationId : String
  allowedIntegrations : Option (List String)
deriving DecidableEq, Repr

/-- `response.data` of `createConnectSession`. -/
structure SessionData : Type where
  token : String
  expires_at : String
deriving DecidableEq, Repr

/-- One entry of `listIntegrations().configs`. -/
structure IntegrationConfig : Type where
  unique_key : String
  provider : String
deriving DecidableEq, Repr

/-- Formatted integration returned by `NangoService.listIntegrations`. -/
structure Integration : Type where
  id : String
  provider : String
deriving DecidableEq, Repr

/-- Connection detail returned by the provider API. -/
structure ConnectionDetail : Type where
  connection_id : String
  provider_config_key : String
  credentials : Option JObj
deriving Repr

/-- Sync trigger result returned by the provider API. -/
structure SyncResult : Type where
  sync_id : String
deriving DecidableEq, Repr

/-- The underlying `@nangohq/node` client, as an oracle of outcomes:
an `Except.error` models a rejected promise. -/
structure NangoClientApi : Type where
  createConnectSession : ConnectSessionRequest → Except Err SessionData
  listIntegrations : Unit → Except Err (List IntegrationConfig)
  getConnection : String → String → Except Err ConnectionDetail
  deleteConnection : String → String → Except Err Unit
  triggerSync : String → List String → String → Except Err SyncResult

/-- Session value returned by `NangoService.createSession`. -/
structure Session : Type where
  sessionToken : String
  expiresAt : String
deriving DecidableEq, Repr

/-- `userEmail || userId@app.local` (JS falsiness: an empty string also
falls back to the default). -/
def resolvedEmail (userId : String) (userEmail : Option String) : String :=
  match userEmail with
  | some e => if e = "" then userId ++ "@app.local" else e
  | none => userId ++ "@app.local"

/-- `integrationId ? [integrationId] : undefined` (JS falsiness: an
empty string yields `undefined`). -/
def resolvedAllowed (integrationId : Option String) : Option (List String) :=
  match integrationId with
  | some i => if i = "" then none else some [i]
  | none => none

/-- `NangoService.createSession`: builds the request (default email
`userId@app.local`, `allowed_integrations` only when an integration id
is given) and maps the response; it has NO try/catch. -/
def NangoService.createSession (client : NangoClientApi) (userId organizationId : String)
    (integrationId userEmail : Option String) : Except Err Session :=
  let req : ConnectSessionRequest :=
    { endUserId := userId
      endUserEmail := resolvedEmail userId userEmail
      organizationId := organizationId
      allowedIntegrations := resolvedAllowed integrationId }
  match client.createConnectSession req with
  | Except.ok r => Except.ok { sessionToken := r.token, expiresAt := r.expires_at }
  | Except.error e => Except.error e

/-- `NangoService.listIntegrations`: maps `configs`; NO try/catch. -/
def NangoService.listIntegrations (client : NangoClientApi) :
    Except Err (List Integration) :=
  match client.listIntegrations () with
  | Except.ok cfgs =>
    Except.ok (cfgs.map (fun c => { id := c.unique_key, provider := c.provider }))
  | Except.error e => Except.error e

/-- `NangoService.getConnection`: try/catch returning `null` on failure. -/
def NangoService.getConnection (client : NangoClientApi)
    (connectionId providerConfigKey : String) : Except Err (Option ConnectionDetail) :=
  match client.getConnection providerConfigKey connectionId with
  | Except.ok c => Except.ok (some c)
  | Except.error _ => Except.ok none

/-- `NangoService.deleteConnection`: try/catch returning `false` on
failure; skips the call (returning `true`) when no provider config key
is given. -/
def NangoService.deleteConnection (client : NangoClientApi) (connectionId : String)
    (providerConfigKey : Option String) : Except Err Bool :=
  match providerConfigKey with
  | some pck =>
    match client.deleteConnection pck connectionId with
    | Except.ok _ => Except.ok true
    | Except.error _ => Except.ok false
  | none => Except.ok true

/-- `syncName || 'default'` (JS falsiness: an empty string also falls
back to the default). -/
def resolvedSyncName (syncName : Option String) : String :=
  match syncName with
  | some n => if n = "" then "default" else n
  | none => "default"

/-- `NangoService.triggerSync`: try/catch returning `null` on failure;
sync name defaults to `"default"`. -/
def NangoService.triggerSync (client : NangoClientApi)
    (connectionId providerConfigKey : String) (syncName : Option String) :
    Except Err (Option SyncResult) :=
  match client.triggerSync providerConfigKey [resolvedSyncName syncName] connectionId with
  | Except.ok r => Except.ok (some r)
  | Except.error _ => Except.ok none

/-! ### In-memory Connection Store (example `InMemoryConnectionService`)

The example service is constructed per request with a pinned requester
`userId`; its `getConnection` and `updateConnectionStatus` scan the
map's values in insertion order and match only connections whose
`owner_id` equals that pinned user.  The store state is the list of
connections in insertion order. -/

/-- First connection matching `connection_id === connectionId &&
owner_id === userId`, scanning in insertion order. -/
def memFind (userId : String) (s : List Connection) (connectionId : String) :
    Option Connection :=
  s.find? (fun c => c.connection_id = connectionId ∧ c.owner_id = userId)

/-- The connection record the example store inserts on creation. -/
def mkConnection (pck cid owner : String) (org : Option String)
    (md : List (String × String)) : Connection :=
  { id := cid, owner_id := owner, organization_id := org,
    provider := pck, connection_id := cid, status := Status.ACTIVE,
    metadata := md, created_at := "", updated_at := "" }

/-- Update the status of the FIRST connection matching the requester's
ownership filter, leaving the rest untouched (the source mutates the
first match and returns). -/
def memUpdate (userId connectionId : String) (st : Status) :
    List Connection → List Connection
  | [] => []
  | c :: rest =>
    if c.connection_id = connectionId ∧ c.owner_id = userId then
      { c with status := st } :: rest
    else c :: memUpdate userId connectionId st rest

/-- The example in-memory Connection Store pinned to requester `userId`:
`getConnection` scans by `connection_id` AND requester ownership,
`createConnection` appends an `ACTIVE` connection owned by the passed
`ownerId`, `updateConnectionStatus` updates the first owned match and
throws `'Connection not found'` when no owned match exists. -/
def memStore (userId : String) : ConnectionService (List Connection) :=
  { getConnection := some (fun cid s => Except.ok (memFind userId s cid, s))
    createConnection := fun pck cid owner org md s =>
      Except.ok (s ++ [mkConnection pck cid owner org md])
    updateConnectionStatus := fun cid st s =>
      if (memFind userId s cid).isSome then
        Except.ok (memUpdate userId cid st s)
      else Except.error "Connection not found" }

/-! ### Helper lemmas on the handler's phases -/

/-- The trace extension contributed by the secrets step. -/
def secretsExt {τ : Type} (event : WebhookEvent)
    (secretsService : Option (SecretsService τ)) : List StoreOp :=
  match secretsService, event.dataCredentials with
  | some _, some _ => [StoreOp.storeSecret event.connectionId event.provider]
  | _, _ => []

theorem secretsPhase_result {σ τ : Type} (event : WebhookEvent) (ownerId : String)
    (organizationId : Option String) (secretsService : Option (SecretsService τ))
    (cs : σ) (ss : τ) (trace : List StoreOp) :
    (secretsPhase event ownerId organizationId secretsService cs ss trace).result
      = okResult event := by
  unfold secretsPhase
  split
  · split <;> rfl
  · rfl

theorem secretsPhase_trace {σ τ : Type} (event : WebhookEvent) (ownerId : String)
    (organizationId : Option String) (secretsService : Option (SecretsService τ))
    (cs : σ) (ss : τ) (trace : List StoreOp) :
    (secretsPhase event ownerId organizationId secretsService cs ss trace).trace
      = trace ++ secretsExt event secretsService := by
  unfold secretsPhase secretsExt
  split
  · split <;> rfl
  · simp

theorem createPhase_result {σ τ : Type} (event : WebhookEvent) (ownerId : String)
    (organizationId : Option String) (svc : ConnectionService σ)
    (secretsService : Option (SecretsService τ)) (cs : σ) (ss : τ)
    (trace : List StoreOp) :
    (createPhase event ownerId organizationId svc secretsService cs ss trace).result
      = okResult event := by
  unfold createPhase
  split
  · exact secretsPhase_result ..
  · split
    · exact secretsPhase_result ..
    · exact secretsPhase_result ..

theorem createPhase_trace_of_error {σ τ : Type} (event : WebhookEvent) (ownerId : String)
    (organizationId : Option String) (svc : ConnectionService σ)
    (secretsService : Option (SecretsService τ)) (cs : σ) (ss : τ)
    (trace : List StoreOp) (e : Err)
    (h : svc.createConnection event.providerConfigKey event.connectionId
        ownerId organizationId (buildMetadata event) cs = Except.error e) :
    (createPhase event ownerId organizationId svc secretsService cs ss trace).trace
      = trace ++
        [StoreOp.createConnection event.providerConfigKey event.connectionId
          ownerId organizationId (buildMetadata event),
         StoreOp.updateConnectionStatus event.connectionId Status.ACTIVE] ++
        secretsExt event secretsService := by
  unfold createPhase
  split
  · rename_i cs2 heq
    rw [h] at heq
    cases heq
  · split <;> rw [secretsPhase_trace]

/-! ### Fixture stores over trivial state -/

/-- A Connection Store whose every call throws. -/
def failingConnSvc : ConnectionService Unit :=
  { getConnection := some (fun _ _ => Except.error "boom")
    createConnection := fun _ _ _ _ _ _ => Except.error "boom"
    updateConnectionStatus := fun _ _ _ => Except.error "boom" }

/-- A Connection Store whose every call succeeds (lookup finds nothing). -/
def okConnSvc : ConnectionService Unit :=
  { getConnection := some (fun _ u => Except.ok (none, u))
    createConnection := fun _ _ _ _ _ _ => Except.ok ()
    updateConnectionStatus := fun _ _ _ => Except.ok () }

/-- A Connection Store whose creation throws but whose lookups and
status updates succeed. -/
def createFailsConnSvc : ConnectionService Unit :=
  { getConnection := some (fun _ u => Except.ok (none, u))
    createConnection := fun _ _ _ _ _ _ => Except.error "duplicate key"
    updateConnectionStatus := fun _ _ _ => Except.ok () }

/-- A Secrets Store whose every call throws. -/
def failingSecSvc : SecretsService Unit :=
  { storeSecret := fun _ _ _ _ _ _ => Except.error "boom"
    deleteSecret := fun _ _ => Except.error "boom" }

/-- A Secrets Store whose `storeSecret` throws but whose `deleteSecret`
succeeds. -/
def storeFailsSecSvc : SecretsService Unit :=
  { storeSecret := fun _ _ _ _ _ _ => Except.error "vault down"
    deleteSecret := fun _ _ => Except.ok () }

/-! ### C1 — signature enforcement -/

/-- A verifier that rejects every (signature, body) pair. -/
def rejectAll : Verifier := fun _ _ => false

/-- Concrete well-formed `auth`/`creation` body. -/
def bodyAuthC1 : RawEvent :=
  { type := some "auth", operation := some "creation", success := some true,
    connectionId := some "conn-1", providerConfigKey := some "slack-prod",
    provider := some "slack",
    endUser := some { endUserId := some "user-1", organizationId := none } }

/-- C1: with a verifying nango service configured, a well-formed body
delivered WITHOUT a signature is processed successfully (verification
is skipped), even under a verifier that rejects everything — while the
same body WITH a signature is rejected.  The code therefore accepts
unsigned requests when a secret is configured, contradicting the
claimed `InvalidSignature` rejection. -/
theorem C1_missing_signature_accepted :
    (handleWebhook (σ := Unit) (τ := Unit) bodyAuthC1 none none
        (some rejectAll) none () ()).result
      = Except.ok ⟨true, EventType.auth, some Operation.creation⟩ ∧
    (handleWebhook (σ := Unit) (τ := Unit) bodyAuthC1 (some "0") none
        (some rejectAll) none () ()).result
      = Except.error HandlerError.invalidSignature := by
  exact ⟨rfl, rfl⟩

/-! ### C4 — provider API gateway failure sentinels -/

/-- A provider API client whose every call fails. -/
def failingClient : NangoClientApi :=
  { createConnectSession := fun _ => Except.error "network down"
    listIntegrations := fun _ => Except.error "network down"
    getConnection := fun _ _ => Except.error "network down"
    deleteConnection := fun _ _ => Except.error "network down"
    triggerSync := fun _ _ _ => Except.error "network down" }

/-- C4 counterexample: `createSession` has no catch and propagates the
underlying provider API failure, refuting "every method … never
propagates an exception"; `listIntegrations` likewise. -/
theorem C4_createSession_propagates :
    NangoService.createSession failingClient "user-1" "org-1" none none
      = Except.error "network down" ∧
    NangoService.listIntegrations failingClient = Except.error "network down" := by
  exact ⟨rfl, rfl⟩

/-- C4 (amended): `getConnection`, `deleteConnection` and `triggerSync`
never propagate a provider API failure — every call returns an `ok`
value — and when the underlying client call fails they return exactly
their `null`/`false`/`null` sentinel; this holds for every client
behavior and argument. -/
theorem C4_sentinel_methods_never_throw (client : NangoClientApi)
    (connectionId providerConfigKey : String)
    (deleteKey syncName : Option String) :
    ((∃ v, NangoService.getConnection client connectionId providerConfigKey
        = Except.ok v) ∧
      (∀ e, client.getConnection providerConfigKey connectionId = Except.error e →
        NangoService.getConnection client connectionId providerConfigKey
          = Except.ok none)) ∧
    ((∃ b, NangoService.deleteConnection client connectionId deleteKey
        = Except.ok b) ∧
      (∀ pck e, deleteKey = some pck →
        client.deleteConnection pck connectionId = Except.error e →
        NangoService.deleteConnection client connectionId deleteKey
          = Except.ok false)) ∧
    ((∃ r, NangoService.triggerSync client connectionId providerConfigKey syncName
        = Except.ok r) ∧
      (∀ e, client.triggerSync providerConfigKey [resolvedSyncName syncName] connectionId
          = Except.error e →
        NangoService.triggerSync client connectionId providerConfigKey syncName
          = Except.ok none)) := by
  refine ⟨⟨?_, ?_⟩, ⟨?_, ?_⟩, ⟨?_, ?_⟩⟩
  · unfold NangoService.getConnection
    split <;> exact ⟨_, rfl⟩
  · intro e he
    unfold NangoService.getConnection
    rw [he]
  · unfold NangoService.deleteConnection
    split
    · split <;> exact ⟨_, rfl⟩
    · exact ⟨_, rfl⟩
  · intro pck e hd he
    rw [hd]
    unfold NangoService.deleteConnection
    simp only [he]
  · unfold NangoService.triggerSync
    split <;> exact ⟨_, rfl⟩
  · intro e he
    unfold NangoService.triggerSync
    rw [he]

/-- C4 witness: against an always-failing client, the three caught
methods return their exact sentinels without throwing. -/
theorem C4_witness :
    NangoService.getConnection failingClient "conn-4" "slack-prod" = Except.ok none ∧
    NangoService.deleteConnection failingClient "conn-4" (some "slack-prod")
      = Except.ok false ∧
    NangoService.triggerSync failingClient "conn-4" "slack-prod" none
      = Except.ok none :=
  ⟨(C4_sentinel_methods_never_throw failingClient "conn-4" "slack-prod"
      (some "slack-prod") none).1.2 "network down" rfl,
   (C4_sentinel_methods_never_throw failingClient "conn-4" "slack-prod"
      (some "slack-prod") none).2.1.2 "slack-prod" "network down" rfl rfl,
   (C4_sentinel_methods_never_throw failingClient "conn-4" "slack-prod"
      (some "slack-prod") none).2.2.2 "network down" rfl⟩

/-! ### C2 — which store failures surface -/

/-- Every call through the optional `getConnection` capability succeeds. -/
def ConnectionService.LookupsSucceed {σ : Type} (svc : ConnectionService σ) : Prop :=
  ∀ g, svc.getConnection = some g → ∀ cid s, ∃ r, g cid s = Except.ok r

/-- Every `updateConnectionStatus` call succeeds. -/
def ConnectionService.UpdatesSucceed {σ : Type} (svc : ConnectionService σ) : Prop :=
  ∀ cid st s, ∃ s2, svc.updateConnectionStatus cid st s = Except.ok s2

/-- Every `deleteSecret` call succeeds. -/
def SecretsService.DeletesSucceed {τ : Type} (svc : SecretsService τ) : Prop :=
  ∀ cid t, ∃ t2, svc.deleteSecret cid t = Except.ok t2

theorem authCreation_result {σ τ : Type} (event : WebhookEvent) (ownerId : String)
    (organizationId : Option String) (connSvc : Option (ConnectionService σ))
    (secSvc : Option (SecretsService τ)) (cs : σ) (ss : τ)
    (hconn : ∀ svc, connSvc = some svc → svc.LookupsSucceed ∧ svc.UpdatesSucceed) :
    (authCreation event ownerId organizationId connSvc secSvc cs ss).result
      = okResult event := by
  rcases connSvc with _ | svc
  · exact secretsPhase_result ..
  · obtain ⟨hl, hu⟩ := hconn svc rfl
    rcases hg : svc.getConnection with _ | getC
    · simp only [authCreation, hg]
      exact createPhase_result ..
    · obtain ⟨r, hr⟩ := hl getC hg event.connectionId cs
      obtain ⟨found, cs1⟩ := r
      rcases found with _ | conn
      · simp only [authCreation, hg, hr]
        exact createPhase_result ..
      · obtain ⟨cs2, hup⟩ := hu event.connectionId Status.ACTIVE cs1
        simp only [authCreation, hg, hr, hup]

theorem authBranch_result {σ τ : Type} (event : WebhookEvent)
    (connSvc : Option (ConnectionService σ)) (secSvc : Option (SecretsService τ))
    (cs : σ) (ss : τ)
    (hconn : ∀ svc, connSvc = some svc → svc.LookupsSucceed ∧ svc.UpdatesSucceed) :
    (authBranch event connSvc secSvc cs ss).result = okResult event := by
  unfold authBranch
  split
  · split
    · rfl
    · rename_i eu heq
      by_cases heu : eu.endUserId = ""
      · rw [if_pos heu]
      · rw [if_neg heu]
        exact authCreation_result _ _ _ _ _ _ _ hconn
  · split
    · rename_i svc
      by_cases hs : event.success = some true
      · rw [if_pos hs]
      · rw [if_neg hs]
        split <;> rfl
    · rfl

theorem deletedBranch_result {σ τ : Type} (event : WebhookEvent)
    (connSvc : Option (ConnectionService σ)) (secSvc : Option (SecretsService τ))
    (cs : σ) (ss : τ)
    (hconn : ∀ svc, connSvc = some svc → svc.LookupsSucceed ∧ svc.UpdatesSucceed)
    (hsec : ∀ svc, secSvc = some svc → svc.DeletesSucceed) :
    (deletedBranch event connSvc secSvc cs ss).result = okResult event := by
  unfold deletedBranch
  rcases connSvc with _ | svc
  · rcases secSvc with _ | sec
    · rfl
    · obtain ⟨ss2, hdel⟩ := hsec sec rfl event.connectionId ss
      simp only [hdel]
  · obtain ⟨cs2, hup⟩ := (hconn svc rfl).2 event.connectionId Status.INACTIVE cs
    simp only [hup]
    rcases secSvc with _ | sec
    · rfl
    · obtain ⟨ss2, hdel⟩ := hsec sec rfl event.connectionId ss
      simp only [hdel]

theorem syncBranch_result {σ τ : Type} (event : WebhookEvent)
    (connSvc : Option (ConnectionService σ)) (cs : σ) (ss : τ)
    (hconn : ∀ svc, connSvc = some svc → svc.LookupsSucceed ∧ svc.UpdatesSucceed) :
    (syncBranch (τ := τ) event connSvc cs ss).result = okResult event := by
  unfold syncBranch
  rcases connSvc with _ | svc
  · rfl
  · obtain ⟨cs2, hup⟩ := (hconn svc rfl).2 event.connectionId
      (if event.success = some true then Status.ACTIVE else Status.ERROR) cs
    simp only [hup]

/-- Concrete `connection.deleted` body. -/
def bodyDeleted : RawEvent :=
  { type := some "connection.deleted", connectionId := some "conn-1",
    providerConfigKey := some "github-prod", provider := some "github" }

/-- The validated event of `bodyDeleted`. -/
def eventDeleted : WebhookEvent :=
  { type := EventType.connectionDeleted, operation := none, success := none,
    connectionId := "conn-1", providerConfigKey := "github-prod",
    provider := "github", environment := none, dataCredentials := none, endUser := none }

/-- C2 counterexample: a schema-valid `connection.deleted` event whose
Connection Store status update throws makes the whole webhook fail —
the store failure surfaces as the handler's result, refuting "downstream
store failures never surface". -/
theorem C2_store_failure_surfaces :
    (handleWebhook (σ := Unit) (τ := Unit) bodyDeleted none (some failingConnSvc)
        none none () ()).result
      = Except.error (HandlerError.storeFailure "boom") := rfl

/-- C2 (amended): once signature and schema checks pass, the handler
returns `{success:true, eventType, operation}` no matter how
`createConnection` and `storeSecret` behave — those failures are caught
and swallowed — provided the UNPROTECTED store calls (the idempotency
lookup, `updateConnectionStatus` outside the creation fallback, and
`deleteSecret`) succeed. -/
theorem C2_success_under_protected_failures {σ τ : Type} (body : RawEvent)
    (signature : Option String) (connSvc : Option (ConnectionService σ))
    (nangoService : Option Verifier) (secSvc : Option (SecretsService τ))
    (cs : σ) (ss : τ) (event : WebhookEvent)
    (hsig : sigAccepted nangoService signature body = true)
    (hparse : parseEvent body = some event)
    (hconn : ∀ svc, connSvc = some svc → svc.LookupsSucceed ∧ svc.UpdatesSucceed)
    (hsec : ∀ svc, secSvc = some svc → svc.DeletesSucceed) :
    (handleWebhook body signature connSvc nangoService secSvc cs ss).result
      = Except.ok ⟨true, event.type, event.operation⟩ := by
  unfold handleWebhook
  rw [hsig, hparse]
  simp only [if_true]
  unfold dispatch
  rcases htype : event.type with _ | _ | _
  · have h := authBranch_result event connSvc secSvc cs ss hconn
    unfold okResult at h
    rw [htype] at h
    exact h
  · have h := syncBranch_result event connSvc cs ss hconn
    unfold okResult at h
    rw [htype] at h
    exact h
  · have h := deletedBranch_result event connSvc secSvc cs ss hconn hsec
    unfold okResult at h
    rw [htype] at h
    exact h

/-- Concrete `auth`/`creation` body with credentials payload. -/
def bodyAuthSecrets : RawEvent :=
  { type := some "auth", operation := some "creation", success := some true,
    connectionId := some "conn-2", providerConfigKey := some "slack-prod",
    provider := some "slack", environment := some "production",
    dataCredentials := some [("type", JVal.str "OAUTH2"), ("access_token", JVal.str "tok")],
    endUser := some { endUserId := some "user-2", organizationId := some "org-2" } }

/-- The validated event of `bodyAuthSecrets`. -/
def eventAuthSecrets : WebhookEvent :=
  { type := EventType.auth, operation := some Operation.creation, success := some true,
    connectionId := "conn-2", providerConfigKey := "slack-prod",
    provider := "slack", environment := some "production",
    dataCredentials := some [("type", JVal.str "OAUTH2"), ("access_token", JVal.str "tok")],
    endUser := some { endUserId := "user-2", organizationId := some "org-2" } }

/-- C2 witness: a creation event against stores whose `createConnection`
and `storeSecret` always throw still yields overall success. -/
theorem C2_witness :
    (handleWebhook (σ := Unit) (τ := Unit) bodyAuthSecrets none (some createFailsConnSvc)
        none (some storeFailsSecSvc) () ()).result
      = Except.ok ⟨true, EventType.auth, some Operation.creation⟩ :=
  C2_success_under_protected_failures bodyAuthSecrets none (some createFailsConnSvc)
    none (some storeFailsSecSvc) () () eventAuthSecrets rfl rfl
    (fun svc h => by
      cases h
      refine ⟨fun g hg cid s => ?_, fun cid st s => ⟨(), rfl⟩⟩
      obtain rfl := Option.some.inj hg
      exact ⟨(none, s), rfl⟩)
    (fun svc h => by cases h; exact fun cid t => ⟨(), rfl⟩)

/-! ### C3 — connection.deleted store operations are sequential -/

/-- C3 counterexample: with both stores present, a failing Connection
Store update on `connection.deleted` prevents the Secrets Store deletion
from being attempted at all — the operations are not independent. -/
theorem C3_update_failure_blocks_delete :
    (handleWebhook (σ := Unit) (τ := Unit) bodyDeleted none (some failingConnSvc)
        none (some storeFailsSecSvc) () ()).trace
      = [StoreOp.updateConnectionStatus "conn-1" Status.INACTIVE] ∧
    StoreOp.deleteSecret "conn-1"
        ∉ (handleWebhook (σ := Unit) (τ := Unit) bodyDeleted none (some failingConnSvc)
          none (some storeFailsSecSvc) () ()).trace ∧
    (handleWebhook (σ := Unit) (τ := Unit) bodyDeleted none (some failingConnSvc)
        none (some storeFailsSecSvc) () ()).result
      = Except.error (HandlerError.storeFailure "boom") := by
  refine ⟨rfl, ?_, rfl⟩
  decide

/-- C3 (amended): on a `connection.deleted` event with both stores
present, `deleteSecret` is attempted exactly when the Connection Store
status update succeeds; the update's failure blocks the deletion (the
deletion, coming second, can never block the update). -/
theorem C3_delete_gated_on_update {σ τ : Type} (body : RawEvent)
    (signature : Option String) (nangoService : Option Verifier)
    (svc : ConnectionService σ) (sec : SecretsService τ)
    (cs : σ) (ss : τ) (event : WebhookEvent)
    (hsig : sigAccepted nangoService signature body = true)
    (hparse : parseEvent body = some event)
    (htype : event.type = EventType.connectionDeleted) :
    (StoreOp.deleteSecret event.connectionId
        ∈ (handleWebhook body signature (some svc) nangoService (some sec) cs ss).trace)
      ↔ ∃ cs2, svc.updateConnectionStatus event.connectionId Status.INACTIVE cs
          = Except.ok cs2 := by
  unfold handleWebhook
  rw [hsig, hparse]
  simp only [if_true]
  unfold dispatch
  rw [htype]
  unfold deletedBranch
  rcases hup : svc.updateConnectionStatus event.connectionId Status.INACTIVE cs with e | cs2
  · simp [hup]
  · simp only [hup]
    split <;> simp

/-- C3 witness: when the update succeeds, `deleteSecret` is attempted. -/
theorem C3_witness :
    StoreOp.deleteSecret "conn-1"
      ∈ (handleWebhook (σ := Unit) (τ := Unit) bodyDeleted none (some okConnSvc)
          none (some storeFailsSecSvc) () ()).trace :=
  (C3_delete_gated_on_update bodyDeleted none none okConnSvc storeFailsSecSvc () ()
      eventDeleted rfl rfl rfl).mpr ⟨(), rfl⟩

/-! ### C8 — ownership gating is a frame condition -/

/-- C8: a schema-valid `auth`/`creation`/`success=true` event with no
`endUser` resolves no owner: the handler touches no store (empty trace,
states unchanged) and still reports success. -/
theorem C8_missing_owner_no_store_ops {σ τ : Type} (body : RawEvent)
    (signature : Option String) (connectionService : Option (ConnectionService σ))
    (nangoService : Option Verifier) (secretsService : Option (SecretsService τ))
    (cs : σ) (ss : τ) (event : WebhookEvent)
    (hsig : sigAccepted nangoService signature body = true)
    (hparse : parseEvent body = some event)
    (htype : event.type = EventType.auth)
    (hop : event.operation = some Operation.creation)
    (hsuc : event.success = some true)
    (hend : event.endUser = none) :
    (handleWebhook body signature connectionService nangoService secretsService cs ss)
      = ⟨Except.ok ⟨true, EventType.auth, some Operation.creation⟩, cs, ss, []⟩ := by
  unfold handleWebhook
  rw [hsig, hparse]
  simp only [if_true]
  unfold dispatch
  rw [htype]
  unfold authBranch
  rw [hop, hsuc, hend]
  simp [okResult, htype, hop]

/-- Concrete ownerless `auth`/`creation` body. -/
def bodyNoOwner : RawEvent :=
  { type := some "auth", operation := some "creation", success := some true,
    connectionId := some "conn-no-owner", providerConfigKey := some "slack-prod",
    provider := some "slack" }

/-- The validated event of `bodyNoOwner`. -/
def eventNoOwner : WebhookEvent :=
  { type := EventType.auth, operation := some Operation.creation, success := some true,
    connectionId := "conn-no-owner", providerConfigKey := "slack-prod",
    provider := "slack", environment := none, dataCredentials := none, endUser := none }

/-- C8 witness at a concrete ownerless event with both stores present. -/
theorem C8_witness :
    (handleWebhook (σ := Unit) (τ := Unit) bodyNoOwner
        none (some failingConnSvc) none (some failingSecSvc) () ())
      = ⟨Except.ok ⟨true, EventType.auth, some Operation.creation⟩, (), (), []⟩ :=
  C8_missing_owner_no_store_ops bodyNoOwner none (some failingConnSvc) none
    (some failingSecSvc) () () eventNoOwner rfl rfl rfl rfl rfl rfl

/-! ### C10 — missing success flag on auth events -/

/-- C10: a schema-valid `auth` event whose `success` field is absent is
routed to the auth-failure path: with a Connection Store present the
handler attempts exactly one `updateConnectionStatus(id,'ERROR')` and
still reports success (the update's failure is swallowed), for every
`operation` value. -/
theorem C10_missing_success_is_failure {σ τ : Type} (body : RawEvent)
    (signature : Option String) (svc : ConnectionService σ)
    (nangoService : Option Verifier) (secretsService : Option (SecretsService τ))
    (cs : σ) (ss : τ) (event : WebhookEvent)
    (hsig : sigAccepted nangoService signature body = true)
    (hparse : parseEvent body = some event)
    (htype : event.type = EventType.auth)
    (hsuc : event.success = none) :
    (handleWebhook body signature (some svc) nangoService secretsService cs ss).trace
      = [StoreOp.updateConnectionStatus event.connectionId Status.ERROR] ∧
    (handleWebhook body signature (some svc) nangoService secretsService cs ss).result
      = Except.ok ⟨true, EventType.auth, event.operation⟩ := by
  unfold handleWebhook
  rw [hsig, hparse]
  simp only [if_true]
  unfold dispatch
  rw [htype]
  unfold authBranch
  rw [hsuc]
  simp only [and_false, if_false, reduceCtorEq]
  constructor
  · split <;> rfl
  · split <;> simp [okResult, htype]

/-- Concrete `auth`/`update` body with no `success` field. -/
def bodyAuthNoSuccess : RawEvent :=
  { type := some "auth", operation := some "update",
    connectionId := some "conn-10", providerConfigKey := some "github-prod",
    provider := some "github" }

/-- The validated event of `bodyAuthNoSuccess`. -/
def eventAuthNoSuccess : WebhookEvent :=
  { type := EventType.auth, operation := some Operation.update, success := none,
    connectionId := "conn-10", providerConfigKey := "github-prod",
    provider := "github", environment := none, dataCredentials := none, endUser := none }

/-- C10 witness: concrete auth/`update` event with no `success`, against
a store whose update succeeds. -/
theorem C10_witness :
    (handleWebhook (σ := Unit) (τ := Unit) bodyAuthNoSuccess
        none (some okConnSvc) none none () ()).trace
      = [StoreOp.updateConnectionStatus "conn-10" Status.ERROR] :=
  (C10_missing_success_is_failure bodyAuthNoSuccess none okConnSvc none none () ()
    eventAuthNoSuccess rfl rfl rfl rfl).1

/-! ### C7 — status mapping -/

/-- C7: with a Connection Store present, the status written is `ACTIVE`
for successful syncs, `ERROR` for failed syncs, `INACTIVE` (first) for
deletions, and `ERROR` for failed auth — where the failed-auth update's
own failure is swallowed and the webhook still succeeds. -/
theorem C7_status_mapping {σ τ : Type} (body : RawEvent) (signature : Option String)
    (svc : ConnectionService σ) (nangoService : Option Verifier)
    (secSvc : Option (SecretsService τ)) (cs : σ) (ss : τ) (event : WebhookEvent)
    (hsig : sigAccepted nangoService signature body = true)
    (hparse : parseEvent body = some event) :
    (event.type = EventType.sync → event.success = some true →
      (handleWebhook body signature (some svc) nangoService secSvc cs ss).trace
        = [StoreOp.updateConnectionStatus event.connectionId Status.ACTIVE]) ∧
    (event.type = EventType.sync → event.success = some false →
      (handleWebhook body signature (some svc) nangoService secSvc cs ss).trace
        = [StoreOp.updateConnectionStatus event.connectionId Status.ERROR]) ∧
    (event.type = EventType.connectionDeleted →
      (handleWebhook body signature (some svc) nangoService secSvc cs ss).trace.head?
        = some (StoreOp.updateConnectionStatus event.connectionId Status.INACTIVE)) ∧
    (event.type = EventType.auth → event.success = some false →
      (handleWebhook body signature (some svc) nangoService secSvc cs ss).trace
        = [StoreOp.updateConnectionStatus event.connectionId Status.ERROR] ∧
      (handleWebhook body signature (some svc) nangoService secSvc cs ss).result
        = Except.ok ⟨true, event.type, event.operation⟩) := by
  refine ⟨?_, ?_, ?_, ?_⟩
  · intro ht hs
    unfold handleWebhook dispatch syncBranch
    rw [hsig, hparse]
    simp only [if_true, ht, hs]
    split <;> rfl
  · intro ht hs
    unfold handleWebhook dispatch syncBranch
    rw [hsig, hparse]
    simp only [if_true, ht, hs]
    split <;> rfl
  · intro ht
    unfold handleWebhook dispatch deletedBranch
    rw [hsig, hparse]
    simp only [if_true, ht]
    split
    · rfl
    · split
      · split <;> rfl
      · rfl
  · intro ht hs
    unfold handleWebhook dispatch authBranch okResult
    rw [hsig, hparse]
    simp only [if_true, ht, hs, Option.some.injEq, reduceCtorEq, and_false, if_false]
    split <;> exact ⟨rfl, rfl⟩

/-- Concrete successful-sync body. -/
def bodySyncOk : RawEvent :=
  { type := some "sync", success := some true, connectionId := some "conn-7",
    providerConfigKey := some "salesforce-prod", provider := some "salesforce" }

/-- The validated event of `bodySyncOk`. -/
def eventSyncOk : WebhookEvent :=
  { type := EventType.sync, operation := none, success := some true,
    connectionId := "conn-7", providerConfigKey := "salesforce-prod",
    provider := "salesforce", environment := none, dataCredentials := none,
    endUser := none }

/-- C7 witness: a successful sync writes exactly one `ACTIVE` status. -/
theorem C7_witness :
    (handleWebhook (σ := Unit) (τ := Unit) bodySyncOk none (some okConnSvc)
        none none () ()).trace
      = [StoreOp.updateConnectionStatus "conn-7" Status.ACTIVE] :=
  (C7_status_mapping bodySyncOk none okConnSvc none none () () eventSyncOk
    rfl rfl).1 rfl rfl

/-! ### C9 — creation failure falls back to one ACTIVE update -/

/-- Reduction of a signed, schema-valid `auth`/`creation`/`success`
event with a non-empty owner to the `authCreation` step. -/
theorem handleWebhook_to_authCreation {σ τ : Type} (body : RawEvent)
    (signature : Option String) (connSvc : Option (ConnectionService σ))
    (nangoService : Option Verifier) (secSvc : Option (SecretsService τ))
    (cs : σ) (ss : τ) (event : WebhookEvent)
    (ownerId : String) (organizationId : Option String)
    (hsig : sigAccepted nangoService signature body = true)
    (hparse : parseEvent body = some event)
    (htype : event.type = EventType.auth)
    (hop : event.operation = some Operation.creation)
    (hsuc : event.success = some true)
    (hend : event.endUser = some ⟨ownerId, organizationId⟩)
    (howner : ownerId ≠ "") :
    handleWebhook body signature connSvc nangoService secSvc cs ss
      = authCreation event ownerId organizationId connSvc secSvc cs ss := by
  unfold handleWebhook
  rw [hsig, hparse]
  simp only [if_true]
  unfold dispatch
  rw [htype]
  show authBranch event connSvc secSvc cs ss = _
  unfold authBranch
  rw [hop, hsuc, if_pos ⟨rfl, rfl⟩, hend]
  show (if ownerId = "" then ⟨okResult event, cs, ss, []⟩
    else authCreation event ownerId organizationId connSvc secSvc cs ss) = _
  rw [if_neg howner]

theorem secretsExt_shape {τ : Type} (event : WebhookEvent)
    (secSvc : Option (SecretsService τ)) :
    secretsExt event secSvc = [] ∨
    secretsExt event secSvc = [StoreOp.storeSecret event.connectionId event.provider] := by
  unfold secretsExt
  split
  · right
    rfl
  · left
    rfl

/-- C9: when `createConnection` throws on an `auth`/`creation` event
that reached the creation step, the handler makes exactly one fallback
`updateConnectionStatus(id,'ACTIVE')` attempt immediately after the
failed creation, no other creation or ACTIVE-update attempt occurs, and
whatever the fallback's outcome the webhook still succeeds. -/
theorem C9_create_failure_fallback {σ τ : Type} (body : RawEvent)
    (signature : Option String) (nangoService : Option Verifier)
    (svc : ConnectionService σ) (secSvc : Option (SecretsService τ))
    (cs : σ) (ss : τ) (event : WebhookEvent)
    (ownerId : String) (organizationId : Option String)
    (hsig : sigAccepted nangoService signature body = true)
    (hparse : parseEvent body = some event)
    (htype : event.type = EventType.auth)
    (hop : event.operation = some Operation.creation)
    (hsuc : event.success = some true)
    (hend : event.endUser = some ⟨ownerId, organizationId⟩)
    (howner : ownerId ≠ "")
    (hreach : svc.getConnection = none ∨
      ∃ getC cs1, svc.getConnection = some getC ∧
        getC event.connectionId cs = Except.ok (none, cs1))
    (hcreate : ∀ s, ∃ e, svc.createConnection event.providerConfigKey event.connectionId
        ownerId organizationId (buildMetadata event) s = Except.error e) :
    (handleWebhook body signature (some svc) nangoService secSvc cs ss).result
      = Except.ok ⟨true, EventType.auth, some Operation.creation⟩ ∧
    ∃ t1 t2, (handleWebhook body signature (some svc) nangoService secSvc cs ss).trace
        = t1 ++ [StoreOp.createConnection event.providerConfigKey event.connectionId
            ownerId organizationId (buildMetadata event),
          StoreOp.updateConnectionStatus event.connectionId Status.ACTIVE] ++ t2 ∧
      StoreOp.updateConnectionStatus event.connectionId Status.ACTIVE ∉ t1 ∧
      StoreOp.updateConnectionStatus event.connectionId Status.ACTIVE ∉ t2 ∧
      StoreOp.createConnection event.providerConfigKey event.connectionId
          ownerId organizationId (buildMetadata event) ∉ t1 ∧
      StoreOp.createConnection event.providerConfigKey event.connectionId
          ownerId organizationId (buildMetadata event) ∉ t2 := by
  rw [handleWebhook_to_authCreation body signature (some svc) nangoService secSvc cs ss
    event ownerId organizationId hsig hparse htype hop hsuc hend howner]
  have hres : ∀ (s1 : σ) (tr : List StoreOp),
      (createPhase event ownerId organizationId svc secSvc s1 ss tr).result
        = Except.ok ⟨true, EventType.auth, some Operation.creation⟩ := by
    intro s1 tr
    have h := createPhase_result event ownerId organizationId svc secSvc s1 ss tr
    unfold okResult at h
    rw [htype, hop] at h
    exact h
  rcases hreach with hget | ⟨getC, cs1, hget, hgc⟩
  · have hac : authCreation event ownerId organizationId (some svc) secSvc cs ss
        = createPhase event ownerId organizationId svc secSvc cs ss [] := by
      simp only [authCreation, hget]
    rw [hac]
    obtain ⟨e, hc⟩ := hcreate cs
    refine ⟨hres cs [], [], secretsExt event secSvc,
      createPhase_trace_of_error event ownerId organizationId svc secSvc cs ss [] e hc,
      ?_, ?_, ?_, ?_⟩
    · simp
    · rcases secretsExt_shape event secSvc with hext | hext <;> simp [hext]
    · simp
    · rcases secretsExt_shape event secSvc with hext | hext <;> simp [hext]
  · have hac : authCreation event ownerId organizationId (some svc) secSvc cs ss
        = createPhase event ownerId organizationId svc secSvc cs1 ss
            [StoreOp.getConnection event.connectionId] := by
      simp only [authCreation, hget, hgc]
    rw [hac]
    obtain ⟨e, hc⟩ := hcreate cs1
    refine ⟨hres cs1 [StoreOp.getConnection event.connectionId],
      [StoreOp.getConnection event.connectionId], secretsExt event secSvc,
      createPhase_trace_of_error event ownerId organizationId svc secSvc cs1 ss
        [StoreOp.getConnection event.connectionId] e hc,
      ?_, ?_, ?_, ?_⟩
    · simp
    · rcases secretsExt_shape event secSvc with hext | hext <;> simp [hext]
    · simp
    · rcases secretsExt_shape event secSvc with hext | hext <;> simp [hext]

/-- C9 witness: concrete creation event against a store whose creation
throws; the webhook still succeeds. -/
theorem C9_witness :
    (handleWebhook (σ := Unit) (τ := Unit) bodyAuthSecrets none
        (some createFailsConnSvc) none none () ()).result
      = Except.ok ⟨true, EventType.auth, some Operation.creation⟩ :=
  (C9_create_failure_fallback bodyAuthSecrets none none createFailsConnSvc none () ()
    eventAuthSecrets "user-2" (some "org-2") rfl rfl rfl rfl rfl rfl
    (by decide)
    (Or.inr ⟨_, (), rfl, rfl⟩)
    (fun s => ⟨"duplicate key", rfl⟩)).1

/-! ### C5 — idempotent creation against the in-memory store -/

theorem memStore_get (userId : String) :
    (memStore userId).getConnection
      = some (fun cid s => Except.ok (memFind userId s cid, s)) := rfl

theorem memStore_create (userId pck cid owner : String) (org : Option String)
    (md : List (String × String)) (s : List Connection) :
    (memStore userId).createConnection pck cid owner org md s
      = Except.ok (s ++ [mkConnection pck cid owner org md]) := rfl

theorem memFind_append_singleton (userId : String) (s : List Connection)
    (c : Connection) (cid : String) (habsent : memFind userId s cid = none) :
    memFind userId (s ++ [c]) cid = memFind userId [c] cid := by
  unfold memFind at habsent ⊢
  rw [List.find?_append, habsent]
  rfl

theorem memFind_inserted (pck cid owner : String) (org : Option String)
    (md : List (String × String)) :
    memFind owner [mkConnection pck cid owner org md] cid
      = some (mkConnection pck cid owner org md) := by
  unfold memFind
  rw [List.find?_cons_of_pos]
  simp [mkConnection]

theorem memStore_update_found (userId cid : String) (st : Status) (s : List Connection)
    (h : (memFind userId s cid).isSome = true) :
    (memStore userId).updateConnectionStatus cid st s
      = Except.ok (memUpdate userId cid st s) := by
  show (if (memFind userId s cid).isSome then _ else _) = _
  rw [if_pos h]

/-- The raw body of an `auth`/`creation`/`success` delivery. -/
def authCreationBody (pck cid prov owner : String) (org env : Option String) : RawEvent :=
  { type := some "auth", operation := some "creation", success := some true,
    connectionId := some cid, providerConfigKey := some pck, provider := some prov,
    environment := env,
    endUser := some { endUserId := some owner, organizationId := org } }

/-- Its validated event. -/
def authCreationEvent (pck cid prov owner : String) (org env : Option String) : WebhookEvent :=
  { type := EventType.auth, operation := some Operation.creation, success := some true,
    connectionId := cid, providerConfigKey := pck, provider := prov,
    environment := env, dataCredentials := none,
    endUser := some { endUserId := owner, organizationId := org } }

theorem parse_authCreationBody (pck cid prov owner : String) (org env : Option String) :
    parseEvent (authCreationBody pck cid prov owner org env)
      = some (authCreationEvent pck cid prov owner org env) := rfl

/-- First delivery against the example store pinned to the event's
owner: the scoped lookup misses, creation appends the connection. -/
theorem memStore_first_delivery (pck cid prov owner : String) (org env : Option String)
    (s0 : List Connection) (howner : owner ≠ "")
    (habsent : memFind owner s0 cid = none) :
    handleWebhook (τ := Unit) (authCreationBody pck cid prov owner org env) none
        (some (memStore owner)) none none s0 ()
      = ⟨Except.ok ⟨true, EventType.auth, some Operation.creation⟩,
          s0 ++ [mkConnection pck cid owner org
            (buildMetadata (authCreationEvent pck cid prov owner org env))], (),
          [StoreOp.getConnection cid,
           StoreOp.createConnection pck cid owner org
             (buildMetadata (authCreationEvent pck cid prov owner org env))]⟩ := by
  rw [handleWebhook_to_authCreation (authCreationBody pck cid prov owner org env) none
    (some (memStore owner)) none none s0 () (authCreationEvent pck cid prov owner org env)
    owner org rfl (parse_authCreationBody ..) rfl rfl rfl rfl howner]
  simp only [authCreation, authCreationEvent, memStore_get, habsent, createPhase,
    memStore_create, secretsPhase]
  rfl

/-- Second delivery in the same owner context: the scoped lookup hits
the inserted connection, so only a status update to ACTIVE is attempted
— no second creation. -/
theorem memStore_second_delivery (pck cid prov owner : String) (org env : Option String)
    (s1 : List Connection) (howner : owner ≠ "")
    (hfound : (memFind owner s1 cid).isSome = true) :
    handleWebhook (τ := Unit) (authCreationBody pck cid prov owner org env) none
        (some (memStore owner)) none none s1 ()
      = ⟨Except.ok ⟨true, EventType.auth, some Operation.creation⟩,
          memUpdate owner cid Status.ACTIVE s1, (),
          [StoreOp.getConnection cid,
           StoreOp.updateConnectionStatus cid Status.ACTIVE]⟩ := by
  rw [handleWebhook_to_authCreation (authCreationBody pck cid prov owner org env) none
    (some (memStore owner)) none none s1 () (authCreationEvent pck cid prov owner org env)
    owner org rfl (parse_authCreationBody ..) rfl rfl rfl rfl howner]
  obtain ⟨c, hc⟩ := Option.isSome_iff_exists.mp hfound
  simp only [authCreation, authCreationEvent, memStore_get, hc,
    memStore_update_found owner cid Status.ACTIVE s1 hfound]
  rfl

/-- C5: delivering the same `auth`/`creation`/`success=true` event twice
against the example in-memory Connection Store — pinned, as the example
route pins it, to the requester who owns the event — starting from a
state whose scoped lookup misses, performs exactly one
`createConnection` overall: the first delivery traces a lookup and a
creation, the second traces a lookup and an `ACTIVE` status update
(found through the owner-scoped pre-creation lookup), and both report
success. -/
theorem C5_duplicate_delivery_single_create (pck cid prov owner : String)
    (org env : Option String) (s0 : List Connection)
    (howner : owner ≠ "") (habsent : memFind owner s0 cid = none) :
    (handleWebhook (τ := Unit) (authCreationBody pck cid prov owner org env) none
        (some (memStore owner)) none none s0 ()).trace
      = [StoreOp.getConnection cid,
         StoreOp.createConnection pck cid owner org
           (buildMetadata (authCreationEvent pck cid prov owner org env))] ∧
    (handleWebhook (τ := Unit) (authCreationBody pck cid prov owner org env) none
        (some (memStore owner)) none none s0 ()).result
      = Except.ok ⟨true, EventType.auth, some Operation.creation⟩ ∧
    (handleWebhook (τ := Unit) (authCreationBody pck cid prov owner org env) none
        (some (memStore owner)) none none
        (handleWebhook (τ := Unit) (authCreationBody pck cid prov owner org env) none
          (some (memStore owner)) none none s0 ()).connState ()).trace
      = [StoreOp.getConnection cid,
         StoreOp.updateConnectionStatus cid Status.ACTIVE] ∧
    (handleWebhook (τ := Unit) (authCreationBody pck cid prov owner org env) none
        (some (memStore owner)) none none
        (handleWebhook (τ := Unit) (authCreationBody pck cid prov owner org env) none
          (some (memStore owner)) none none s0 ()).connState ()).result
      = Except.ok ⟨true, EventType.auth, some Operation.creation⟩ := by
  have h1 := memStore_first_delivery pck cid prov owner org env s0 howner habsent
  have hfound : (memFind owner ((handleWebhook (τ := Unit)
      (authCreationBody pck cid prov owner org env) none
      (some (memStore owner)) none none s0 ()).connState) cid).isSome = true := by
    rw [h1]
    rw [memFind_append_singleton owner s0 _ cid habsent, memFind_inserted]
    rfl
  have h2 := memStore_second_delivery pck cid prov owner org env
    ((handleWebhook (τ := Unit) (authCreationBody pck cid prov owner org env) none
      (some (memStore owner)) none none s0 ()).connState) howner hfound
  refine ⟨?_, ?_, ?_, ?_⟩
  · rw [h1]
  · rw [h1]
  · rw [h2]
  · rw [h2]

/-- C5 witness: concrete double delivery from an empty store, in the
service context of the event's owner. -/
theorem C5_witness :
    (handleWebhook (τ := Unit) (authCreationBody "slack-prod" "conn-5" "slack" "user-5"
        none none) none (some (memStore "user-5")) none none
        (handleWebhook (τ := Unit) (authCreationBody "slack-prod" "conn-5" "slack" "user-5"
          none none) none (some (memStore "user-5")) none none [] ()).connState ()).trace
      = [StoreOp.getConnection "conn-5",
         StoreOp.updateConnectionStatus "conn-5" Status.ACTIVE] :=
  (C5_duplicate_delivery_single_create "slack-prod" "conn-5" "slack" "user-5"
    none none [] (by decide) rfl).2.2.1

/-! ### C6 — credential normalizer mapping -/

theorem convert_oauth2 (nc : JObj) (h : jlookup nc "type" = some (JVal.str "OAUTH2")) :
    convertNangoCredentials nc
      = { type := "OAUTH2", access_token := jlookup nc "access_token",
          refresh_token := jlookup nc "refresh_token",
          expires_at := convertedExpiresAt nc, raw := credRaw nc } := by
  unfold convertNangoCredentials
  rw [h]
  exact rfl

theorem convert_oauth2cc (nc : JObj) (h : jlookup nc "type" = some (JVal.str "OAUTH2_CC")) :
    convertNangoCredentials nc
      = { type := "OAUTH2", access_token := jlookup nc "token",
          expires_at := convertedExpiresAt nc, raw := credRaw nc } := by
  unfold convertNangoCredentials
  rw [h]
  exact rfl

theorem convert_oauth1 (nc : JObj) (h : jlookup nc "type" = some (JVal.str "OAUTH1")) :
    convertNangoCredentials nc
      = { type := "OAUTH1", access_token := jlookup nc "oauth_token",
          raw := assignObj (credRaw nc) (oauth1Extras nc) } := by
  unfold convertNangoCredentials
  rw [h]
  exact rfl

theorem convert_apikey (nc : JObj) (h : jlookup nc "type" = some (JVal.str "API_KEY")) :
    convertNangoCredentials nc
      = { type := "API_KEY", api_key := jlookup nc "api_key", raw := credRaw nc } := by
  unfold convertNangoCredentials
  rw [h]
  exact rfl

theorem convert_basic (nc : JObj) (h : jlookup nc "type" = some (JVal.str "BASIC")) :
    convertNangoCredentials nc
      = { type := "BASIC", username := jlookup nc "username",
          password := jlookup nc "password", raw := credRaw nc } := by
  unfold convertNangoCredentials
  rw [h]
  exact rfl

theorem convert_default_str (nc : JObj) (s : String)
    (h : jlookup nc "type" = some (JVal.str s))
    (hs : s ∉ ["OAUTH2", "OAUTH2_CC", "OAUTH1", "API_KEY", "BASIC"]) :
    convertNangoCredentials nc
      = { type := "CUSTOM", raw := assignObj (credRaw nc) nc } := by
  unfold convertNangoCredentials
  rw [h]
  split <;> simp_all

theorem convert_default_none (nc : JObj) (h : jlookup nc "type" = none) :
    convertNangoCredentials nc
      = { type := "CUSTOM", raw := assignObj (credRaw nc) nc } := by
  unfold convertNangoCredentials
  rw [h]

/-- C6: the credential normalizer is a total pure function mapping each
declared raw type exactly as specified — OAUTH2 keeps access/refresh
tokens and `expires_at`, OAUTH2_CC becomes OAUTH2 with `access_token`
taken from `token`, OAUTH1 takes `access_token` from `oauth_token` and
preserves `oauth_token`/`oauth_token_secret` in `raw`, API_KEY maps
`api_key`, BASIC maps `username`/`password`, any other (or absent)
declared type becomes CUSTOM with the entire raw object merged into
`raw`, and a Date-valued `expires_at` is rendered as its ISO string. -/
theorem C6_normalizer_mapping (nc : JObj) :
    (jlookup nc "type" = some (JVal.str "OAUTH2") →
      convertNangoCredentials nc
        = { type := "OAUTH2", access_token := jlookup nc "access_token",
            refresh_token := jlookup nc "refresh_token",
            expires_at := convertedExpiresAt nc, raw := credRaw nc }) ∧
    (jlookup nc "type" = some (JVal.str "OAUTH2_CC") →
      convertNangoCredentials nc
        = { type := "OAUTH2", access_token := jlookup nc "token",
            expires_at := convertedExpiresAt nc, raw := credRaw nc }) ∧
    (jlookup nc "type" = some (JVal.str "OAUTH1") →
      convertNangoCredentials nc
        = { type := "OAUTH1", access_token := jlookup nc "oauth_token",
            raw := assignObj (credRaw nc) (oauth1Extras nc) }) ∧
    (jlookup nc "type" = some (JVal.str "API_KEY") →
      convertNangoCredentials nc
        = { type := "API_KEY", api_key := jlookup nc "api_key", raw := credRaw nc }) ∧
    (jlookup nc "type" = some (JVal.str "BASIC") →
      convertNangoCredentials nc
        = { type := "BASIC", username := jlookup nc "username",
            password := jlookup nc "password", raw := credRaw nc }) ∧
    (∀ s, jlookup nc "type" = some (JVal.str s) →
      s ∉ ["OAUTH2", "OAUTH2_CC", "OAUTH1", "API_KEY", "BASIC"] →
      convertNangoCredentials nc
        = { type := "CUSTOM", raw := assignObj (credRaw nc) nc }) ∧
    (jlookup nc "type" = none →
      convertNangoCredentials nc
        = { type := "CUSTOM", raw := assignObj (credRaw nc) nc }) ∧
    (∀ iso, jlookup nc "expires_at" = some (JVal.date iso) →
      convertedExpiresAt nc = some (JVal.str iso)) :=
  ⟨convert_oauth2 nc, convert_oauth2cc nc, convert_oauth1 nc, convert_apikey nc,
   convert_basic nc, convert_default_str nc, convert_default_none nc,
   fun iso h => by unfold convertedExpiresAt; rw [h]; rfl⟩

/-- Raw OAuth2 credentials with a Date-valued expiry. -/
def ncOauth2Fixture : JObj :=
  [("type", JVal.str "OAUTH2"), ("access_token", JVal.str "a-tok"),
   ("refresh_token", JVal.str "r-tok"),
   ("expires_at", JVal.date "2025-06-01T00:00:00.000Z")]

/-- Raw credentials of an undeclared type. -/
def ncCustomFixture : JObj :=
  [("type", JVal.str "TBA"), ("token_id", JVal.str "t-1")]

/-- C6 witness: the OAUTH2 fixture maps field-for-field with its Date
expiry rendered as an ISO string, and the unknown-type fixture falls
back to CUSTOM carrying the whole object in `raw`. -/
theorem C6_witness :
    convertNangoCredentials ncOauth2Fixture
      = { type := "OAUTH2", access_token := some (JVal.str "a-tok"),
          refresh_token := some (JVal.str "r-tok"),
          expires_at := some (JVal.str "2025-06-01T00:00:00.000Z"), raw := [] } ∧
    convertNangoCredentials ncCustomFixture
      = { type := "CUSTOM",
          raw := [("type", JVal.str "TBA"), ("token_id", JVal.str "t-1")] } :=
  ⟨(C6_normalizer_mapping ncOauth2Fixture).1 rfl,
   (C6_normalizer_mapping ncCustomFixture).2.2.2.2.2.1 "TBA" rfl (by simp)⟩

end NangoPlugin
